import Mathlib

/-!
Verification of the audio mixing / synchronization engine of the dubbed-video
player (sources: DubbedPlayer.tsx, the audio utilities decodeAudioData /
createWavBlob, and the app-level types).

The development shallowly embeds the relevant source functions:
byte buffers become lists of naturals, times / gains / audio samples become
rationals, and the stateful React component becomes explicit state records
with pure transition functions mirroring the handlers in the source.
-/

set_option autoImplicit false

namespace Dubbed

/-! ## Audio utilities (audioUtils: base64ToUint8Array / decodeAudioData / createWavBlob) -/

/-- Error raised when decoding a PCM byte buffer whose length is not a
multiple of 2: in the source this is the RangeError thrown by the
Int16Array constructor applied to an odd-length buffer
(`new Int16Array(data.buffer)` in decodeAudioData); the spec calls it
MalformedAudio. -/
inductive AudioError where
  | malformedAudio
deriving DecidableEq, Repr

/-- A decoded audio buffer: sample rate and per-channel normalized sample
arrays, mirroring the AudioBuffer produced by `ctx.createBuffer` plus the
writes performed by decodeAudioData. -/
structure AudioBufferQ where
  sampleRate : Nat
  channels : List (List ℚ)
deriving DecidableEq, Repr

/-- Signed 16-bit little-endian value of two bytes, as read by an
Int16Array view over the byte buffer (lo is the byte at the even index). -/
def toInt16 (lo hi : Nat) : Int :=
  let v : Int := (lo : Int) + 256 * (hi : Int)
  if v < 32768 then v else v - 65536

/-- The Int16Array view on the byte buffer: consecutive byte pairs become
signed 16-bit little-endian values. -/
def toInt16List : List Nat → List Int
  | lo :: hi :: rest => toInt16 lo hi :: toInt16List rest
  | _ => []

/-- Embedding of decodeAudioData (audioUtils): reject odd byte lengths
(the Int16Array constructor throws), view the bytes as int16 LE samples,
take frameCount = samples / numChannels, and fill each channel with
`dataInt16[i * numChannels + channel] / 32768.0`. -/
def decodeAudioData (data : List Nat) (sampleRate : Nat) (numChannels : Nat) :
    Except AudioError AudioBufferQ :=
  if data.length % 2 ≠ 0 then
    .error .malformedAudio
  else
    let dataInt16 := toInt16List data
    let frameCount := dataInt16.length / numChannels
    .ok { sampleRate := sampleRate
        , channels :=
            (List.range numChannels).map fun channel =>
              (List.range frameCount).map fun i =>
                ((dataInt16.getD (i * numChannels + channel) 0 : Int) : ℚ) / 32768 }

/-- decodeAudioData as invoked on the synthesized voice buffer in
DubbedPlayer (numChannels left at its default of 1). -/
def decodeVoice (data : List Nat) (sampleRate : Nat) : Except AudioError AudioBufferQ :=
  decodeAudioData data sampleRate 1

/-- DataView.setUint16 little-endian: the value is reduced mod 2^16 and
stored as two bytes, low byte first. -/
def u16le (v : Nat) : List Nat :=
  let m := v % 65536
  [m % 256, m / 256]

/-- DataView.setUint32 little-endian: the value is reduced mod 2^32 and
stored as four bytes, low byte first. -/
def u32le (v : Nat) : List Nat :=
  let m := v % 4294967296
  [m % 256, m / 256 % 256, m / 65536 % 256, m / 16777216]

/-- Embedding of createWavBlob (audioUtils): a 44-byte canonical RIFF/WAVE
header followed by the raw PCM bytes.  The four-character tags are the
ASCII codes written by writeString (RIFF, WAVE, fmt followed by a space,
data). -/
def createWavBlob (samples : List Nat) (sampleRate : Nat) : List Nat :=
  [82, 73, 70, 70] ++ u32le (36 + samples.length) ++ [87, 65, 86, 69]
    ++ [102, 109, 116, 32] ++ u32le 16 ++ u16le 1 ++ u16le 1
    ++ u32le sampleRate ++ u32le (sampleRate * 2) ++ u16le 2 ++ u16le 16
    ++ [100, 97, 116, 97] ++ u32le samples.length ++ samples

/-- Little-endian 32-bit read from a byte list, used to parse header fields
back out of an encoded WAV byte string. -/
def readU32le (bytes : List Nat) (off : Nat) : Nat :=
  bytes.getD off 0 + 256 * bytes.getD (off + 1) 0 + 65536 * bytes.getD (off + 2) 0
    + 16777216 * bytes.getD (off + 3) 0

/-- Little-endian 16-bit read from a byte list. -/
def readU16le (bytes : List Nat) (off : Nat) : Nat :=
  bytes.getD off 0 + 256 * bytes.getD (off + 1) 0

end Dubbed

namespace Dubbed

/-! ## Helper lemmas about the Int16Array view -/

theorem toInt16List_length : ∀ l : List Nat, (toInt16List l).length = l.length / 2
  | [] => by simp [toInt16List]
  | [_] => by simp [toInt16List]
  | _ :: _ :: rest => by
      simp only [toInt16List, List.length_cons, toInt16List_length rest]
      omega

theorem toInt16List_cons (lo hi : Nat) (rest : List Nat) :
    toInt16List (lo :: hi :: rest) = toInt16 lo hi :: toInt16List rest := rfl

theorem toInt16List_getD (l : List Nat) (i : Nat) (h : 2 * i + 1 < l.length) :
    (toInt16List l).getD i 0 = toInt16 (l.getD (2 * i) 0) (l.getD (2 * i + 1) 0) := by
  induction i generalizing l with
  | zero =>
      cases l with
      | nil => simp at h
      | cons lo t =>
          cases t with
          | nil => simp at h
          | cons hi rest =>
              rw [toInt16List_cons, List.getD_cons_zero,
                show 2 * 0 = 0 from rfl, List.getD_cons_zero,
                show (0 : Nat) + 1 = 0 + 1 from rfl, List.getD_cons_succ,
                List.getD_cons_zero]
  | succ i ih =>
      cases l with
      | nil => simp at h
      | cons lo t =>
          cases t with
          | nil => simp at h
          | cons hi rest =>
              have hr : 2 * i + 1 < rest.length := by simp at h; omega
              calc (toInt16List (lo :: hi :: rest)).getD (i + 1) 0
                  = (toInt16List rest).getD i 0 := by
                    rw [toInt16List_cons, List.getD_cons_succ]
                _ = toInt16 (rest.getD (2 * i) 0) (rest.getD (2 * i + 1) 0) := ih rest hr
                _ = toInt16 ((lo :: hi :: rest).getD (2 * (i + 1)) 0)
                      ((lo :: hi :: rest).getD (2 * (i + 1) + 1) 0) := by
                    rw [show 2 * (i + 1) = 2 * i + 1 + 1 from by omega]
                    simp only [List.getD_cons_succ]

theorem toInt16_bounds (lo hi : Nat) (hlo : lo < 256) (hhi : hi < 256) :
    -32768 ≤ toInt16 lo hi ∧ toInt16 lo hi ≤ 32767 := by
  simp only [toInt16]
  split <;> omega

/-! ## Claims C6, C7, C8 -/

/-- Claim C6: for every sample rate R and every PCM byte string of even
length L (with both header fields in 32-bit range), the WAV encoder's
output is a 44-byte header followed by the input bytes unmodified, and
parsing the header back yields RIFF chunk size 36+L, data sub-chunk size
L, byte rate R*2 and block align 2. -/
theorem wav_roundtrip (samples : List Nat) (R : Nat)
    (hEven : samples.length % 2 = 0)
    (hL : 36 + samples.length < 4294967296) (hR : R * 2 < 4294967296) :
    (createWavBlob samples R).length = 44 + samples.length ∧
    (createWavBlob samples R).drop 44 = samples ∧
    readU32le (createWavBlob samples R) 4 = 36 + samples.length ∧
    readU32le (createWavBlob samples R) 40 = samples.length ∧
    readU32le (createWavBlob samples R) 28 = R * 2 ∧
    readU16le (createWavBlob samples R) 32 = 2 := by
  refine ⟨?_, ?_, ?_, ?_, ?_, ?_⟩
  · simp [createWavBlob, u32le, u16le]
    omega
  · simp [createWavBlob, u32le, u16le]
  · simp [createWavBlob, u32le, u16le, readU32le, List.getD]
    omega
  · simp [createWavBlob, u32le, u16le, readU32le, List.getD]
    omega
  · simp [createWavBlob, u32le, u16le, readU32le, List.getD]
    omega
  · simp [createWavBlob, u32le, u16le, readU16le, List.getD]

/-- Witness for C6 at samples = [1, 2], R = 24000. -/
theorem wav_roundtrip_witness :
    ([1, 2] : List Nat).length % 2 = 0 ∧ 36 + ([1, 2] : List Nat).length < 4294967296 ∧
    24000 * 2 < 4294967296 ∧
    ((createWavBlob [1, 2] 24000).length = 44 + ([1, 2] : List Nat).length ∧
     (createWavBlob [1, 2] 24000).drop 44 = [1, 2] ∧
     readU32le (createWavBlob [1, 2] 24000) 4 = 36 + ([1, 2] : List Nat).length ∧
     readU32le (createWavBlob [1, 2] 24000) 40 = ([1, 2] : List Nat).length ∧
     readU32le (createWavBlob [1, 2] 24000) 28 = 24000 * 2 ∧
     readU16le (createWavBlob [1, 2] 24000) 32 = 2) :=
  ⟨by decide, by decide, by decide,
   wav_roundtrip [1, 2] 24000 (by decide) (by decide) (by decide)⟩

/-- Claim C7: decoding a voice byte buffer whose length is not a multiple
of 2 fails with the MalformedAudio error (the thrown RangeError), and no
decoded buffer is produced. -/
theorem decode_odd_length_fails (data : List Nat) (sr : Nat)
    (h : data.length % 2 ≠ 0) :
    decodeVoice data sr = .error .malformedAudio := by
  simp [decodeVoice, decodeAudioData, h]

/-- Witness for C7 at the 3-byte buffer [1, 2, 3]. -/
theorem decode_odd_length_fails_witness :
    ([1, 2, 3] : List Nat).length % 2 ≠ 0 ∧
    decodeVoice [1, 2, 3] 24000 = .error .malformedAudio :=
  ⟨by decide, decode_odd_length_fails [1, 2, 3] 24000 (by decide)⟩

/-- Claim C8: decoding a valid (even-length) 16-bit PCM byte buffer yields
a single-channel buffer whose sample count is the byte length divided
by 2, and whose i-th sample is the signed 16-bit little-endian value of
bytes 2i, 2i+1 divided by 32768, hence lies in [-1, 1]. -/
theorem decode_valid_pcm (data : List Nat) (sr : Nat)
    (hEven : data.length % 2 = 0) (hBytes : ∀ b ∈ data, b < 256) :
    ∃ ch : List ℚ,
      decodeVoice data sr = .ok { sampleRate := sr, channels := [ch] } ∧
      ch.length = data.length / 2 ∧
      ∀ i, i < data.length / 2 →
        ch.getD i 0 =
          ((toInt16 (data.getD (2 * i) 0) (data.getD (2 * i + 1) 0) : Int) : ℚ) / 32768 ∧
        -1 ≤ ch.getD i 0 ∧ ch.getD i 0 ≤ 1 := by
  refine ⟨(List.range ((toInt16List data).length / 1)).map
      (fun i => (((toInt16List data).getD (i * 1 + 0) 0 : Int) : ℚ) / 32768), ?_, ?_, ?_⟩
  · simp [decodeVoice, decodeAudioData, hEven, List.range_succ]
  · simp [toInt16List_length]
  · intro i hi
    have hlist : i < (toInt16List data).length := by
      rw [toInt16List_length]; omega
    have hlen : i < (toInt16List data).length / 1 := by omega
    have hget : ((List.range ((toInt16List data).length / 1)).map
        (fun i => (((toInt16List data).getD (i * 1 + 0) 0 : Int) : ℚ) / 32768)).getD i 0
        = (((toInt16List data).getD (i * 1 + 0) 0 : Int) : ℚ) / 32768 := by
      rw [List.getD_eq_getElem?_getD, List.getElem?_map, List.getElem?_range hlen]
      rfl
    have hidx : 2 * i + 1 < data.length := by omega
    have hsample := toInt16List_getD data i hidx
    have hi1 : i * 1 + 0 = i := by omega
    rw [hget, hi1, hsample]
    have hlo : data.getD (2 * i) 0 < 256 := by
      have hb : 2 * i < data.length := by omega
      rw [List.getD_eq_getElem data 0 hb]
      exact hBytes _ (List.getElem_mem hb)
    have hhi : data.getD (2 * i + 1) 0 < 256 := by
      rw [List.getD_eq_getElem data 0 hidx]
      exact hBytes _ (List.getElem_mem hidx)
    obtain ⟨hb1, hb2⟩ := toInt16_bounds _ _ hlo hhi
    refine ⟨rfl, ?_, ?_⟩
    · rw [le_div_iff₀ (by norm_num : (0:ℚ) < 32768)]
      have h1 : ((-32768 : ℤ) : ℚ) ≤
          ((toInt16 (data.getD (2 * i) 0) (data.getD (2 * i + 1) 0) : ℤ) : ℚ) :=
        Int.cast_le.mpr hb1
      push_cast at h1
      linarith
    · rw [div_le_one₀ (by norm_num : (0:ℚ) < 32768)]
      have h2 : ((toInt16 (data.getD (2 * i) 0) (data.getD (2 * i + 1) 0) : ℤ) : ℚ) ≤
          ((32767 : ℤ) : ℚ) :=
        Int.cast_le.mpr hb2
      push_cast at h2
      linarith

/-- Witness for C8 at the 4-byte buffer [0, 128, 255, 127] (samples
-32768/32768 = -1 and 32767/32768). -/
theorem decode_valid_pcm_witness :
    ([0, 128, 255, 127] : List Nat).length % 2 = 0 ∧
    (∀ b ∈ ([0, 128, 255, 127] : List Nat), b < 256) ∧
    (∃ ch : List ℚ,
      decodeVoice [0, 128, 255, 127] 24000 = .ok { sampleRate := 24000, channels := [ch] } ∧
      ch.length = ([0, 128, 255, 127] : List Nat).length / 2 ∧
      ∀ i, i < ([0, 128, 255, 127] : List Nat).length / 2 →
        ch.getD i 0 =
          ((toInt16 (([0, 128, 255, 127] : List Nat).getD (2 * i) 0)
              (([0, 128, 255, 127] : List Nat).getD (2 * i + 1) 0) : Int) : ℚ) / 32768 ∧
        -1 ≤ ch.getD i 0 ∧ ch.getD i 0 ≤ 1) :=
  ⟨by decide, by decide,
   decode_valid_pcm [0, 128, 255, 127] 24000 (by decide) (by decide)⟩

end Dubbed

namespace Dubbed

/-! ## Transport / playback state machine (DubbedPlayer.tsx) -/

/-- A buffer-backed source instance (AudioBufferSourceNode) that has been
started and not yet stopped: a creation id, the start offset into its
buffer, and its loop flag. -/
structure SourceInst where
  id : Nat
  offset : ℚ
  loop : Bool
deriving DecidableEq, Repr

/-- JavaScript truncation toward zero. -/
def jsTrunc (q : ℚ) : ℤ := if 0 ≤ q then ⌊q⌋ else ⌈q⌉

/-- The JavaScript remainder operator a % b (remainder of truncated
division), used for the background start offset. -/
def jsMod (a b : ℚ) : ℚ := a - b * (jsTrunc (a / b) : ℤ)

/-- Playback-relevant state of the DubbedPlayer component: the video
element clock and playing flag, the isPlaying React state, the decoded
buffer durations held by voiceBufferRef / bgBufferRef, the source refs
voiceSourceRef / bgSourceRef (ids), the per-channel started-and-not-yet-
stopped source instances, and a fresh-id counter for source creation. -/
structure PlayerState where
  videoTime : ℚ
  videoPlaying : Bool
  isPlaying : Bool
  voiceBuffer : Option ℚ
  bgBuffer : Option ℚ
  voiceSourceRef : Option Nat
  bgSourceRef : Option Nat
  liveVoice : List SourceInst
  liveBg : List SourceInst
  nextId : Nat
deriving DecidableEq, Repr

/-- stopSources: for each non-null source ref, stop the instance (removing
it from the live set), disconnect it and null the ref. -/
def stopSources (s : PlayerState) : PlayerState :=
  let lv := match s.voiceSourceRef with
    | some i => s.liveVoice.filter (fun inst => inst.id != i)
    | none => s.liveVoice
  let lb := match s.bgSourceRef with
    | some i => s.liveBg.filter (fun inst => inst.id != i)
    | none => s.liveBg
  { s with voiceSourceRef := none, bgSourceRef := none, liveVoice := lv, liveBg := lb }

/-- play: stop previous sources, read the video clock t, create a voice
source when a Voice buffer exists and start it at offset t only when
t is less than the buffer duration, create and always start a looping
background source at offset t % duration when a Background buffer exists,
then start the video element and set isPlaying. -/
def play (s : PlayerState) : PlayerState :=
  let s1 := stopSources s
  let t := s1.videoTime
  let s2 := match s1.voiceBuffer with
    | some dv =>
        { s1 with voiceSourceRef := some s1.nextId,
                  liveVoice := if t < dv then ⟨s1.nextId, t, false⟩ :: s1.liveVoice
                               else s1.liveVoice,
                  nextId := s1.nextId + 1 }
    | none => s1
  let s3 := match s2.bgBuffer with
    | some db =>
        { s2 with bgSourceRef := some s2.nextId,
                  liveBg := ⟨s2.nextId, jsMod t db, true⟩ :: s2.liveBg,
                  nextId := s2.nextId + 1 }
    | none => s2
  { s3 with videoPlaying := true, isPlaying := true }

/-- pause: pause the video element, stop both sources, clear isPlaying. -/
def pause (s : PlayerState) : PlayerState :=
  let s1 := stopSources { s with videoPlaying := false }
  { s1 with isPlaying := false }

/-- togglePlay button handler. -/
def togglePlay (s : PlayerState) : PlayerState :=
  if s.isPlaying then pause s else play s

/-- handleSeek: set the video element time, and if currently playing
re-invoke play in full to resync audio at the new position. -/
def handleSeek (t : ℚ) (s : PlayerState) : PlayerState :=
  let s1 := { s with videoTime := t }
  if s1.isPlaying then play s1 else s1

/-- Video element onEnded handler outside of rendering: clear isPlaying
and stop both sources (the video element itself has stopped). -/
def onEnded (s : PlayerState) : PlayerState :=
  stopSources { s with videoPlaying := false, isPlaying := false }

/-- The decodeTTS effect on success: store the decoded voice buffer. -/
def setVoiceBuffer (d : ℚ) (s : PlayerState) : PlayerState :=
  { s with voiceBuffer := some d }

/-- The loadBg effect: with no file selected the background buffer is
cleared; with a file, the platform decode either succeeds (yielding a
buffer of duration d, which replaces the previous one) or throws, in
which case the catch block only logs and the previous buffer is kept.
The argument is the selected file abstracted to its decode outcome. -/
def loadBg (file : Option (Option ℚ)) (s : PlayerState) : PlayerState :=
  match file with
  | none => { s with bgBuffer := none }
  | some (some d) => { s with bgBuffer := some d }
  | some none => s

/-- Well-formedness of the playback state: every live (started, not yet
stopped) instance is the one held by its channel's source ref, and each
channel has at most one live instance. -/
def WF (s : PlayerState) : Prop :=
  (∀ inst ∈ s.liveVoice, s.voiceSourceRef = some inst.id) ∧
  (∀ inst ∈ s.liveBg, s.bgSourceRef = some inst.id) ∧
  s.liveVoice.length ≤ 1 ∧ s.liveBg.length ≤ 1

theorem stopSources_live (s : PlayerState) (h : WF s) :
    (stopSources s).liveVoice = [] ∧ (stopSources s).liveBg = [] := by
  obtain ⟨hv, hb, -, -⟩ := h
  constructor
  · show (match s.voiceSourceRef with
      | some i => s.liveVoice.filter (fun inst => inst.id != i)
      | none => s.liveVoice) = []
    cases href : s.voiceSourceRef with
    | none =>
        cases hl : s.liveVoice with
        | nil => rfl
        | cons a l => exact absurd (hv a (by rw [hl]; exact List.mem_cons_self a l)) (by rw [href]; simp)
    | some i =>
        apply List.filter_eq_nil_iff.mpr
        intro a ha
        have := hv a ha
        rw [href] at this
        simp at this
        simp [this]
  · show (match s.bgSourceRef with
      | some i => s.liveBg.filter (fun inst => inst.id != i)
      | none => s.liveBg) = []
    cases href : s.bgSourceRef with
    | none =>
        cases hl : s.liveBg with
        | nil => rfl
        | cons a l => exact absurd (hb a (by rw [hl]; exact List.mem_cons_self a l)) (by rw [href]; simp)
    | some i =>
        apply List.filter_eq_nil_iff.mpr
        intro a ha
        have := hb a ha
        rw [href] at this
        simp at this
        simp [this]

end Dubbed

namespace Dubbed

@[simp] theorem stopSources_videoTime (s : PlayerState) : (stopSources s).videoTime = s.videoTime := rfl
@[simp] theorem stopSources_videoPlaying (s : PlayerState) : (stopSources s).videoPlaying = s.videoPlaying := rfl
@[simp] theorem stopSources_isPlaying (s : PlayerState) : (stopSources s).isPlaying = s.isPlaying := rfl
@[simp] theorem stopSources_voiceBuffer (s : PlayerState) : (stopSources s).voiceBuffer = s.voiceBuffer := rfl
@[simp] theorem stopSources_bgBuffer (s : PlayerState) : (stopSources s).bgBuffer = s.bgBuffer := rfl
@[simp] theorem stopSources_nextId (s : PlayerState) : (stopSources s).nextId = s.nextId := rfl
@[simp] theorem stopSources_voiceSourceRef (s : PlayerState) : (stopSources s).voiceSourceRef = none := rfl
@[simp] theorem stopSources_bgSourceRef (s : PlayerState) : (stopSources s).bgSourceRef = none := rfl

theorem play_liveVoice_started (s : PlayerState) (h : WF s) (dv : ℚ)
    (hv : s.voiceBuffer = some dv) (ht : s.videoTime < dv) :
    (play s).liveVoice = [⟨s.nextId, s.videoTime, false⟩] := by
  obtain ⟨hlv, hlb⟩ := stopSources_live s h
  unfold play
  cases hbb : s.bgBuffer <;> simp [hv, hbb, hlv, ht]

theorem play_liveVoice_skipped (s : PlayerState) (h : WF s) (dv : ℚ)
    (hv : s.voiceBuffer = some dv) (ht : dv ≤ s.videoTime) :
    (play s).liveVoice = [] := by
  obtain ⟨hlv, hlb⟩ := stopSources_live s h
  unfold play
  cases hbb : s.bgBuffer <;> simp [hv, hbb, hlv, not_lt.mpr ht]

theorem play_liveVoice_none (s : PlayerState) (h : WF s)
    (hv : s.voiceBuffer = none) :
    (play s).liveVoice = [] := by
  obtain ⟨hlv, hlb⟩ := stopSources_live s h
  unfold play
  cases hbb : s.bgBuffer <;> simp [hv, hbb, hlv]

theorem play_liveBg_some (s : PlayerState) (h : WF s) (db : ℚ)
    (hb : s.bgBuffer = some db) :
    (play s).liveBg = [⟨if s.voiceBuffer.isSome then s.nextId + 1 else s.nextId,
      jsMod s.videoTime db, true⟩] := by
  obtain ⟨hlv, hlb⟩ := stopSources_live s h
  unfold play
  cases hvb : s.voiceBuffer <;> simp [hb, hvb, hlb]

theorem play_liveBg_none (s : PlayerState) (h : WF s)
    (hb : s.bgBuffer = none) :
    (play s).liveBg = [] := by
  obtain ⟨hlv, hlb⟩ := stopSources_live s h
  unfold play
  cases hvb : s.voiceBuffer <;> simp [hb, hvb, hlb]

end Dubbed

namespace Dubbed

theorem WF_stopSources (s : PlayerState) (h : WF s) : WF (stopSources s) := by
  obtain ⟨hlv, hlb⟩ := stopSources_live s h
  refine ⟨?_, ?_, ?_, ?_⟩ <;> simp [hlv, hlb]

theorem WF_play (s : PlayerState) (h : WF s) : WF (play s) := by
  obtain ⟨hlv, hlb⟩ := stopSources_live s h
  unfold play WF
  cases hvb : s.voiceBuffer with
  | none =>
      cases hbb : s.bgBuffer with
      | none => simp [hvb, hbb, hlv, hlb]
      | some db => simp [hvb, hbb, hlv, hlb]
  | some dv =>
      cases hbb : s.bgBuffer with
      | none => by_cases ht : s.videoTime < dv <;> simp [hvb, hbb, hlv, hlb, ht]
      | some db => by_cases ht : s.videoTime < dv <;> simp [hvb, hbb, hlv, hlb, ht]

theorem WF_pause (s : PlayerState) (h : WF s) : WF (pause s) := by
  obtain ⟨hlv, hlb⟩ := stopSources_live { s with videoPlaying := false } h
  unfold pause WF
  refine ⟨?_, ?_, ?_, ?_⟩ <;> simp [hlv, hlb]

theorem WF_handleSeek (t : ℚ) (s : PlayerState) (h : WF s) : WF (handleSeek t s) := by
  unfold handleSeek
  by_cases hp : s.isPlaying
  · simp [hp]
    exact WF_play _ h
  · simp [hp]
    exact h

theorem WF_onEnded (s : PlayerState) (h : WF s) : WF (onEnded s) :=
  WF_stopSources { s with videoPlaying := false, isPlaying := false } h

theorem WF_setVoiceBuffer (d : ℚ) (s : PlayerState) (h : WF s) : WF (setVoiceBuffer d s) := h

theorem WF_loadBg (f : Option (Option ℚ)) (s : PlayerState) (h : WF s) : WF (loadBg f s) := by
  unfold loadBg
  match f with
  | none => exact h
  | some (some d) => exact h
  | some none => exact h

theorem play_fresh (s : PlayerState) (h : WF s) :
    ∀ inst : SourceInst,
      (inst ∈ (play s).liveVoice ∨ inst ∈ (play s).liveBg) → s.nextId ≤ inst.id := by
  intro inst hmem
  rcases hmem with hv | hb
  · cases hvb : s.voiceBuffer with
    | none => rw [play_liveVoice_none s h hvb] at hv; simp at hv
    | some dv =>
        by_cases ht : s.videoTime < dv
        · rw [play_liveVoice_started s h dv hvb ht] at hv
          simp at hv
          subst hv
          show s.nextId ≤ s.nextId
          omega
        · rw [play_liveVoice_skipped s h dv hvb (not_lt.mp ht)] at hv
          simp at hv
  · cases hbb : s.bgBuffer with
    | none => rw [play_liveBg_none s h hbb] at hb; simp at hb
    | some db =>
        rw [play_liveBg_some s h db hbb] at hb
        simp at hb
        subst hb
        show s.nextId ≤ if s.voiceBuffer.isSome then s.nextId + 1 else s.nextId
        split <;> omega

theorem pause_play_live_nil (s : PlayerState) (h : WF s) :
    (pause (play s)).liveVoice = [] ∧ (pause (play s)).liveBg = [] := by
  have hwf : WF { play s with videoPlaying := false } := WF_play s h
  obtain ⟨hlv, hlb⟩ := stopSources_live { play s with videoPlaying := false } hwf
  unfold pause
  exact ⟨hlv, hlb⟩

end Dubbed

namespace Dubbed

/-! ## Export / recording pipeline (performExport in DubbedPlayer.tsx) -/

/-- Export kind: the argument of performExport. -/
inductive ExpType where
  | video
  | audio
deriving DecidableEq, Repr

/-- Component state relevant to export: the playback state, the isReady /
isRendering / renderType React state, whether a capture destination has
been created (destRef), which channel gain nodes are connected to it,
whether the recorder has been started and not yet stopped, the number of
file downloads triggered so far, and whether the platform supports
captureStream on the video element. -/
structure ExportState where
  player : PlayerState
  isReady : Bool
  isRendering : Bool
  renderType : Option ExpType
  destExists : Bool
  destConnVoice : Bool
  destConnBg : Bool
  destConnOriginal : Bool
  recorderActive : Bool
  downloads : Nat
  captureSupported : Bool
deriving DecidableEq, Repr

/-- performExport: guard on a present voice buffer; set isRendering and
renderType; pause; create the capture destination and connect all three
gain nodes to it; for a video export with no captureStream support,
alert, reset isRendering and return early; otherwise create the recorder,
start it, seek the video to 0 and invoke play. -/
def performExport (ty : ExpType) (e : ExportState) : ExportState :=
  if e.player.voiceBuffer.isNone then e
  else
    let e1 := { e with isRendering := true, renderType := some ty }
    let e2 := { e1 with player := pause e1.player }
    let e3 := { e2 with destExists := true, destConnVoice := true,
                        destConnBg := true, destConnOriginal := true }
    if ty = ExpType.video ∧ e3.captureSupported = false then
      { e3 with isRendering := false }
    else
      let e4 := { e3 with recorderActive := true }
      { e4 with player := play { e4.player with videoTime := 0 } }

/-- An export request as issued through the UI: the Export Audio / Export
Video buttons carry disabled := isRendering or not isReady, so a click
while rendering or before readiness does nothing. -/
def exportClick (ty : ExpType) (e : ExportState) : ExportState :=
  if e.isRendering || !e.isReady then e else performExport ty e

/-- The recorder's onstop handler: assemble the chunks, trigger exactly one
file download, disconnect the capture destination from the three gain
nodes, and clear isRendering / renderType. -/
def recorderOnStop (e : ExportState) : ExportState :=
  { e with downloads := e.downloads + 1,
           destConnVoice := false, destConnBg := false, destConnOriginal := false,
           isRendering := false, renderType := none }

/-- The video's natural end during an export: stop the recorder, stop the
transport sources and clear isPlaying; the recorder then fires its onstop
handler. Without an active recorder nothing happens. -/
def exportEnded (e : ExportState) : ExportState :=
  if e.recorderActive then
    recorderOnStop { e with recorderActive := false, player := onEnded e.player }
  else e

/-- Initial component state right after mount: gain nodes wired, nothing
playing, no live sources, no export in flight.  The decoded voice /
background buffers and the platform's capture capability are parameters. -/
def initE (vb bb : Option ℚ) (cap : Bool) : ExportState :=
  { player := { videoTime := 0, videoPlaying := false, isPlaying := false,
                voiceBuffer := vb, bgBuffer := bb,
                voiceSourceRef := none, bgSourceRef := none,
                liveVoice := [], liveBg := [], nextId := 0 },
    isReady := false, isRendering := false, renderType := none,
    destExists := false, destConnVoice := false, destConnBg := false,
    destConnOriginal := false, recorderActive := false, downloads := 0,
    captureSupported := cap }

/-- The decodeTTS success effect: store the decoded voice buffer and set
isReady. -/
def voiceDecoded (d : ℚ) (e : ExportState) : ExportState :=
  { e with player := setVoiceBuffer d e.player, isReady := true }

/-- States of the component reachable from mount through the discrete
events the source handles: play / pause / seek / natural video end /
decode completions / export requests / export completion. -/
inductive ReachableE : ExportState → Prop where
  | init (vb bb : Option ℚ) (cap : Bool) : ReachableE (initE vb bb cap)
  | playEv {e} : ReachableE e → ReachableE { e with player := play e.player }
  | pauseEv {e} : ReachableE e → ReachableE { e with player := pause e.player }
  | seekEv (t : ℚ) {e} : ReachableE e → ReachableE { e with player := handleSeek t e.player }
  | endedEv {e} : ReachableE e → ReachableE { e with player := onEnded e.player }
  | voiceDecodedEv (d : ℚ) {e} : ReachableE e → ReachableE (voiceDecoded d e)
  | bgLoadEv (f : Option (Option ℚ)) {e} :
      ReachableE e → ReachableE { e with player := loadBg f e.player }
  | exportEv (ty : ExpType) {e} : ReachableE e → ReachableE (exportClick ty e)
  | exportEndedEv {e} : ReachableE e → ReachableE (exportEnded e)

theorem WF_performExport (ty : ExpType) (e : ExportState) (h : WF e.player) :
    WF (performExport ty e).player := by
  unfold performExport
  by_cases hg : e.player.voiceBuffer.isNone
  · simp [hg]
    exact h
  · simp [hg]
    by_cases hc : ty = ExpType.video ∧ e.captureSupported = false
    · simp [hc]
      exact WF_pause e.player h
    · simp [hc]
      exact WF_play _ (WF_pause e.player h)

theorem WF_reachable (e : ExportState) (h : ReachableE e) : WF e.player := by
  induction h with
  | init vb bb cap => exact ⟨by simp [initE], by simp [initE], by simp [initE], by simp [initE]⟩
  | playEv _ ih => exact WF_play _ ih
  | pauseEv _ ih => exact WF_pause _ ih
  | seekEv t _ ih => exact WF_handleSeek t _ ih
  | endedEv _ ih => exact WF_onEnded _ ih
  | voiceDecodedEv d _ ih => exact WF_setVoiceBuffer d _ ih
  | bgLoadEv f _ ih => exact WF_loadBg f _ ih
  | exportEv ty _ ih =>
      unfold exportClick
      split
      · assumption
      · exact WF_performExport ty _ ih
  | exportEndedEv _ ih =>
      unfold exportEnded
      split
      · exact WF_onEnded _ ih
      · exact ih

end Dubbed

namespace Dubbed

/-! ## Mixer: per-channel volume and mute (DubbedPlayer.tsx volume state and effects) -/

/-- Mixer state: the stored volume React state per channel, the mute flags,
and the gain values currently applied to the three gain nodes. -/
structure MixerState where
  volume : ℚ
  bgVolume : ℚ
  originalVolume : ℚ
  isVoiceMuted : Bool
  isBgMuted : Bool
  isOriginalMuted : Bool
  voiceGainValue : ℚ
  bgGainValue : ℚ
  originalGainValue : ℚ
deriving DecidableEq, Repr

/-- The voice volume/mute effect: gain.value becomes 0 when muted and the
stored volume otherwise. -/
def syncVoiceGain (m : MixerState) : MixerState :=
  { m with voiceGainValue := if m.isVoiceMuted then 0 else m.volume }

/-- The background volume/mute effect. -/
def syncBgGain (m : MixerState) : MixerState :=
  { m with bgGainValue := if m.isBgMuted then 0 else m.bgVolume }

/-- The original-audio volume/mute effect. -/
def syncOriginalGain (m : MixerState) : MixerState :=
  { m with originalGainValue := if m.isOriginalMuted then 0 else m.originalVolume }

/-- Voice slider change followed by its effect. -/
def setVolume (v : ℚ) (m : MixerState) : MixerState :=
  syncVoiceGain { m with volume := v }

/-- Background slider change followed by its effect. -/
def setBgVolume (v : ℚ) (m : MixerState) : MixerState :=
  syncBgGain { m with bgVolume := v }

/-- Original slider change followed by its effect. -/
def setOriginalVolume (v : ℚ) (m : MixerState) : MixerState :=
  syncOriginalGain { m with originalVolume := v }

/-- Voice mute button followed by its effect; the stored volume is not
touched. -/
def toggleVoiceMute (m : MixerState) : MixerState :=
  syncVoiceGain { m with isVoiceMuted := !m.isVoiceMuted }

/-- Background mute button followed by its effect. -/
def toggleBgMute (m : MixerState) : MixerState :=
  syncBgGain { m with isBgMuted := !m.isBgMuted }

/-- Original mute button followed by its effect. -/
def toggleOriginalMute (m : MixerState) : MixerState :=
  syncOriginalGain { m with isOriginalMuted := !m.isOriginalMuted }

/-- Mixer state after mount: initial volumes 1 / 0.2 / 0.5 written to the
gain nodes, nothing muted. -/
def initMixer : MixerState :=
  { volume := 1, bgVolume := 0.2, originalVolume := 0.5,
    isVoiceMuted := false, isBgMuted := false, isOriginalMuted := false,
    voiceGainValue := 1, bgGainValue := 0.2, originalGainValue := 0.5 }

/-- Mixer states reachable through the slider and mute-button handlers. -/
inductive ReachableM : MixerState → Prop where
  | init : ReachableM initMixer
  | setVolumeEv (v : ℚ) {m} : ReachableM m → ReachableM (setVolume v m)
  | setBgVolumeEv (v : ℚ) {m} : ReachableM m → ReachableM (setBgVolume v m)
  | setOriginalVolumeEv (v : ℚ) {m} : ReachableM m → ReachableM (setOriginalVolume v m)
  | toggleVoiceMuteEv {m} : ReachableM m → ReachableM (toggleVoiceMute m)
  | toggleBgMuteEv {m} : ReachableM m → ReachableM (toggleBgMute m)
  | toggleOriginalMuteEv {m} : ReachableM m → ReachableM (toggleOriginalMute m)

theorem mixer_inv (m : MixerState) (h : ReachableM m) :
    m.voiceGainValue = (if m.isVoiceMuted then 0 else m.volume) ∧
    m.bgGainValue = (if m.isBgMuted then 0 else m.bgVolume) ∧
    m.originalGainValue = (if m.isOriginalMuted then 0 else m.originalVolume) := by
  induction h with
  | init => exact ⟨rfl, rfl, rfl⟩
  | setVolumeEv v _ ih => exact ⟨rfl, ih.2.1, ih.2.2⟩
  | setBgVolumeEv v _ ih => exact ⟨ih.1, rfl, ih.2.2⟩
  | setOriginalVolumeEv v _ ih => exact ⟨ih.1, ih.2.1, rfl⟩
  | toggleVoiceMuteEv _ ih => exact ⟨rfl, ih.2.1, ih.2.2⟩
  | toggleBgMuteEv _ ih => exact ⟨ih.1, rfl, ih.2.2⟩
  | toggleOriginalMuteEv _ ih => exact ⟨ih.1, ih.2.1, rfl⟩

theorem toggle_toggle_voice (m : MixerState)
    (h1 : m.voiceGainValue = if m.isVoiceMuted then 0 else m.volume) :
    toggleVoiceMute (toggleVoiceMute m) = m := by
  obtain ⟨vol, bgv, ov, mv, mb, mo, gv, gb, go⟩ := m
  simp only at h1
  cases mv <;> simp_all [toggleVoiceMute, syncVoiceGain]

theorem toggle_toggle_bg (m : MixerState)
    (h1 : m.bgGainValue = if m.isBgMuted then 0 else m.bgVolume) :
    toggleBgMute (toggleBgMute m) = m := by
  obtain ⟨vol, bgv, ov, mv, mb, mo, gv, gb, go⟩ := m
  simp only at h1
  cases mb <;> simp_all [toggleBgMute, syncBgGain]

theorem toggle_toggle_original (m : MixerState)
    (h1 : m.originalGainValue = if m.isOriginalMuted then 0 else m.originalVolume) :
    toggleOriginalMute (toggleOriginalMute m) = m := by
  obtain ⟨vol, bgv, ov, mv, mb, mo, gv, gb, go⟩ := m
  simp only at h1
  cases mo <;> simp_all [toggleOriginalMute, syncOriginalGain]

end Dubbed

namespace Dubbed

/-! ## Claims C1 - C5, C9, C10 -/

/-- Component state right after the voice buffer (duration 5) has decoded,
on a platform without captureStream support. -/
def c1State : ExportState := voiceDecoded 5 (initE none none false)

/-- Counterexample to claim C1 as stated: on a capture-unsupported
platform a video export request does abort (no recorder started,
isRendering back to false), but it does NOT abort free of side effects:
the capture-destination routing attached to the three channel gain nodes
before the capability check remains attached. -/
theorem export_capture_unsupported_counterexample :
    (performExport ExpType.video c1State).recorderActive = false ∧
    (performExport ExpType.video c1State).isRendering = false ∧
    ¬((performExport ExpType.video c1State).destConnVoice = false ∧
      (performExport ExpType.video c1State).destConnBg = false ∧
      (performExport ExpType.video c1State).destConnOriginal = false) := by
  decide

/-- Claim C1 (amended): when the platform cannot supply a frame-capture
stream, a video export request starts no recorder, triggers no download
and resets isRendering to false, but the mutations performed before the
capability check persist: the forced pause, the capture destination
connected to all three channel gain nodes, and the renderType marker. -/
theorem export_capture_unsupported (e : ExportState)
    (hV : e.player.voiceBuffer.isSome) (hCap : e.captureSupported = false) :
    (performExport ExpType.video e).recorderActive = e.recorderActive ∧
    (performExport ExpType.video e).downloads = e.downloads ∧
    (performExport ExpType.video e).isRendering = false ∧
    (performExport ExpType.video e).destExists = true ∧
    (performExport ExpType.video e).destConnVoice = true ∧
    (performExport ExpType.video e).destConnBg = true ∧
    (performExport ExpType.video e).destConnOriginal = true ∧
    (performExport ExpType.video e).renderType = some ExpType.video ∧
    (performExport ExpType.video e).player = pause e.player := by
  rcases Option.isSome_iff_exists.mp hV with ⟨dv, hdv⟩
  simp [performExport, hdv, hCap]

/-- Witness for the amended C1 at c1State. -/
theorem export_capture_unsupported_witness :
    c1State.player.voiceBuffer.isSome = true ∧ c1State.captureSupported = false ∧
    ((performExport ExpType.video c1State).recorderActive = c1State.recorderActive ∧
     (performExport ExpType.video c1State).downloads = c1State.downloads ∧
     (performExport ExpType.video c1State).isRendering = false ∧
     (performExport ExpType.video c1State).destExists = true ∧
     (performExport ExpType.video c1State).destConnVoice = true ∧
     (performExport ExpType.video c1State).destConnBg = true ∧
     (performExport ExpType.video c1State).destConnOriginal = true ∧
     (performExport ExpType.video c1State).renderType = some ExpType.video ∧
     (performExport ExpType.video c1State).player = pause c1State.player) :=
  ⟨rfl, rfl, export_capture_unsupported c1State (by decide) rfl⟩

/-- Component state ready to export on a capture-capable platform. -/
def c2State : ExportState := voiceDecoded 5 (initE none none true)

theorem performExport_live (ty : ExpType) (e : ExportState)
    (hV : e.player.voiceBuffer.isSome)
    (hcond : ¬(ty = ExpType.video ∧ e.captureSupported = false)) :
    (performExport ty e).isRendering = true ∧
    (performExport ty e).recorderActive = true ∧
    (performExport ty e).downloads = e.downloads := by
  rcases Option.isSome_iff_exists.mp hV with ⟨dv, hdv⟩
  unfold performExport
  simp [hdv, hcond]

/-- Claim C2: from a non-rendering ready state, an export request enters
the in-flight state; a second export request issued while the first job
is still in flight (isRendering, which stays set from the request through
Recording until the recorder's completion handler) leaves the state
unchanged; running the first job to completion triggers exactly one file
download. -/
theorem export_single_job (e : ExportState) (ty1 ty2 : ExpType)
    (hR : e.isRendering = false) (hReady : e.isReady = true)
    (hV : e.player.voiceBuffer.isSome)
    (hOk : ty1 = ExpType.audio ∨ e.captureSupported = true) :
    (exportClick ty1 e).isRendering = true ∧
    exportClick ty2 (exportClick ty1 e) = exportClick ty1 e ∧
    (exportEnded (exportClick ty2 (exportClick ty1 e))).downloads = e.downloads + 1 := by
  have hcond : ¬(ty1 = ExpType.video ∧ e.captureSupported = false) := by
    rcases hOk with h | h
    · rintro ⟨hv, -⟩
      rw [h] at hv
      cases hv
    · rintro ⟨-, hc⟩
      rw [h] at hc
      cases hc
  have h1 : exportClick ty1 e = performExport ty1 e := by
    simp [exportClick, hR, hReady]
  obtain ⟨hp1, hp2, hp3⟩ := performExport_live ty1 e hV hcond
  have h2 : exportClick ty2 (performExport ty1 e) = performExport ty1 e := by
    simp [exportClick, hp1]
  rw [h1, h2]
  refine ⟨hp1, rfl, ?_⟩
  have h3 : exportEnded (performExport ty1 e)
      = recorderOnStop { (performExport ty1 e) with recorderActive := false, player := onEnded (performExport ty1 e).player } := by
    unfold exportEnded
    rw [hp2]
    simp
  rw [h3]
  simp [recorderOnStop, hp3]

/-- Witness for C2 at c2State with two audio export requests. -/
theorem export_single_job_witness :
    c2State.isRendering = false ∧ c2State.isReady = true ∧
    c2State.player.voiceBuffer.isSome = true ∧
    (ExpType.audio = ExpType.audio ∨ c2State.captureSupported = true) ∧
    ((exportClick ExpType.audio c2State).isRendering = true ∧
     exportClick ExpType.audio (exportClick ExpType.audio c2State) =
       exportClick ExpType.audio c2State ∧
     (exportEnded (exportClick ExpType.audio
        (exportClick ExpType.audio c2State))).downloads = c2State.downloads + 1) :=
  ⟨rfl, rfl, rfl, Or.inl rfl,
   export_single_job c2State ExpType.audio ExpType.audio rfl rfl (by decide) (Or.inl rfl)⟩

end Dubbed

namespace Dubbed

/-- The C3 scenario state: voice buffer duration 5, background duration 3,
video parked at t = 6, not playing. -/
def c3State : PlayerState :=
  { videoTime := 6, videoPlaying := false, isPlaying := false,
    voiceBuffer := some 5, bgBuffer := some 3,
    voiceSourceRef := none, bgSourceRef := none,
    liveVoice := [], liveBg := [], nextId := 0 }

/-- Claim C3: on play with video time t, a Voice source is started at
offset t exactly when a Voice buffer of duration dv exists and t < dv
(no Voice source is live when t is at or past dv), and a looping
Background source is started at offset t % db whenever a Background
buffer of duration db exists, regardless of whether Voice plays. -/
theorem play_offsets (s : PlayerState) (hWF : WF s) :
    (∀ dv, s.voiceBuffer = some dv →
      ((s.videoTime < dv →
          (play s).liveVoice = [⟨s.nextId, s.videoTime, false⟩]) ∧
       (dv ≤ s.videoTime → (play s).liveVoice = []))) ∧
    (∀ db, s.bgBuffer = some db →
      ∃ j, (play s).liveBg = [⟨j, jsMod s.videoTime db, true⟩]) := by
  constructor
  · intro dv hv
    exact ⟨fun ht => play_liveVoice_started s hWF dv hv ht,
           fun ht => play_liveVoice_skipped s hWF dv hv ht⟩
  · intro db hb
    exact ⟨_, play_liveBg_some s hWF db hb⟩

/-- Witness for C3 at the scenario state: voice duration 5, t = 6 (voice
does not play), background duration 3 (starts at offset 6 % 3 = 0). -/
theorem play_offsets_witness :
    WF c3State ∧
    ((∀ dv, c3State.voiceBuffer = some dv →
      ((c3State.videoTime < dv →
          (play c3State).liveVoice = [⟨c3State.nextId, c3State.videoTime, false⟩]) ∧
       (dv ≤ c3State.videoTime → (play c3State).liveVoice = []))) ∧
    (∀ db, c3State.bgBuffer = some db →
      ∃ j, (play c3State).liveBg = [⟨j, jsMod c3State.videoTime db, true⟩])) :=
  ⟨⟨by simp [c3State], by simp [c3State], by simp [c3State], by simp [c3State]⟩,
   play_offsets c3State
     ⟨by simp [c3State], by simp [c3State], by simp [c3State], by simp [c3State]⟩⟩

/-- A playing state with one live voice source and one live looping
background source, both held by their refs. -/
def c4State : PlayerState :=
  { videoTime := 2, videoPlaying := true, isPlaying := true,
    voiceBuffer := some 5, bgBuffer := some 3,
    voiceSourceRef := some 0, bgSourceRef := some 1,
    liveVoice := [⟨0, 2, false⟩], liveBg := [⟨1, 2, true⟩], nextId := 2 }

/-- Claim C4: a seek to t while playing produces exactly the state of
pause() followed by play() with the video positioned at t, and every
source instance live after the seek was created by the seek itself
(fresh id), so no source started before the seek is still playing. -/
theorem seek_equiv_pause_play (s : PlayerState) (t : ℚ)
    (hp : s.isPlaying = true) (hWF : WF s) :
    handleSeek t s = play { pause s with videoTime := t } ∧
    ∀ inst : SourceInst,
      (inst ∈ (handleSeek t s).liveVoice ∨ inst ∈ (handleSeek t s).liveBg) →
      s.nextId ≤ inst.id := by
  constructor
  · cases hvb : s.voiceBuffer <;> cases hbb : s.bgBuffer <;>
      simp [handleSeek, pause, play, stopSources, hp, hvb, hbb]
  · have heq : handleSeek t s = play { s with videoTime := t } := by
      simp [handleSeek, hp]
    rw [heq]
    exact play_fresh { s with videoTime := t } hWF

/-- Witness for C4 at c4State, seeking to t = 7. -/
theorem seek_equiv_pause_play_witness :
    c4State.isPlaying = true ∧ WF c4State ∧
    (handleSeek 7 c4State = play { pause c4State with videoTime := 7 } ∧
     ∀ inst : SourceInst,
       (inst ∈ (handleSeek 7 c4State).liveVoice ∨ inst ∈ (handleSeek 7 c4State).liveBg) →
       c4State.nextId ≤ inst.id) :=
  ⟨rfl,
   ⟨by simp [c4State], by simp [c4State], by simp [c4State], by simp [c4State]⟩,
   seek_equiv_pause_play c4State 7 rfl
     ⟨by simp [c4State], by simp [c4State], by simp [c4State], by simp [c4State]⟩⟩

/-- Claim C5: in every reachable component state there is at most one
live source instance per buffer-backed channel (at most one active
PlaybackSession), and play() immediately followed by pause() leaves zero
live source instances. -/
theorem single_playback_session (e : ExportState) (h : ReachableE e) :
    e.player.liveVoice.length ≤ 1 ∧ e.player.liveBg.length ≤ 1 ∧
    (pause (play e.player)).liveVoice = [] ∧
    (pause (play e.player)).liveBg = [] := by
  have hwf := WF_reachable e h
  obtain ⟨p1, p2⟩ := pause_play_live_nil e.player hwf
  exact ⟨hwf.2.2.1, hwf.2.2.2, p1, p2⟩

/-- Witness for C5 at the freshly mounted state with decoded buffers. -/
theorem single_playback_session_witness :
    ReachableE (initE (some 5) (some 3) true) ∧
    ((initE (some 5) (some 3) true).player.liveVoice.length ≤ 1 ∧
     (initE (some 5) (some 3) true).player.liveBg.length ≤ 1 ∧
     (pause (play (initE (some 5) (some 3) true).player)).liveVoice = [] ∧
     (pause (play (initE (some 5) (some 3) true).player)).liveBg = []) :=
  ⟨ReachableE.init (some 5) (some 3) true,
   single_playback_session _ (ReachableE.init (some 5) (some 3) true)⟩

/-- Claim C9: in every reachable mixer state the gain value applied to
each channel's gain node is 0 when the channel is muted and the stored
volume otherwise, and toggling mute twice (mute then unmute) restores
the exact prior state, in particular the pre-mute gain value. -/
theorem mute_overlay (m : MixerState) (h : ReachableM m) :
    (m.voiceGainValue = if m.isVoiceMuted then 0 else m.volume) ∧
    (m.bgGainValue = if m.isBgMuted then 0 else m.bgVolume) ∧
    (m.originalGainValue = if m.isOriginalMuted then 0 else m.originalVolume) ∧
    toggleVoiceMute (toggleVoiceMute m) = m ∧
    toggleBgMute (toggleBgMute m) = m ∧
    toggleOriginalMute (toggleOriginalMute m) = m := by
  obtain ⟨h1, h2, h3⟩ := mixer_inv m h
  exact ⟨h1, h2, h3, toggle_toggle_voice m h1, toggle_toggle_bg m h2,
         toggle_toggle_original m h3⟩

/-- Witness for C9 at a reachable state with a changed voice volume. -/
theorem mute_overlay_witness :
    ReachableM (setVolume (5/4) initMixer) ∧
    (((setVolume (5/4) initMixer).voiceGainValue =
        if (setVolume (5/4) initMixer).isVoiceMuted then 0
        else (setVolume (5/4) initMixer).volume) ∧
     ((setVolume (5/4) initMixer).bgGainValue =
        if (setVolume (5/4) initMixer).isBgMuted then 0
        else (setVolume (5/4) initMixer).bgVolume) ∧
     ((setVolume (5/4) initMixer).originalGainValue =
        if (setVolume (5/4) initMixer).isOriginalMuted then 0
        else (setVolume (5/4) initMixer).originalVolume) ∧
     toggleVoiceMute (toggleVoiceMute (setVolume (5/4) initMixer)) =
       setVolume (5/4) initMixer ∧
     toggleBgMute (toggleBgMute (setVolume (5/4) initMixer)) =
       setVolume (5/4) initMixer ∧
     toggleOriginalMute (toggleOriginalMute (setVolume (5/4) initMixer)) =
       setVolume (5/4) initMixer) :=
  ⟨ReachableM.setVolumeEv (5/4) ReachableM.init,
   mute_overlay _ (ReachableM.setVolumeEv (5/4) ReachableM.init)⟩

/-- A state with a previously decoded background buffer (duration 3). -/
def c10State : PlayerState :=
  { videoTime := 2, videoPlaying := false, isPlaying := false,
    voiceBuffer := some 5, bgBuffer := some 3,
    voiceSourceRef := none, bgSourceRef := none,
    liveVoice := [], liveBg := [], nextId := 0 }

/-- Claim C10: a failed decode of a newly selected background file leaves
the Background channel's buffer exactly as it was; a buffer decoded
earlier keeps being used by subsequent play() calls (a looping source is
started from it), and the channel is empty after the failed decode only
when it was already empty. -/
theorem bg_decode_failure_keeps_buffer (s : PlayerState) (hWF : WF s) :
    (loadBg (some none) s).bgBuffer = s.bgBuffer ∧
    (∀ db, s.bgBuffer = some db →
      ∃ j, (play (loadBg (some none) s)).liveBg = [⟨j, jsMod s.videoTime db, true⟩]) ∧
    (s.bgBuffer = none → (loadBg (some none) s).bgBuffer = none ∧
      (play (loadBg (some none) s)).liveBg = []) := by
  have hid : loadBg (some none) s = s := rfl
  rw [hid]
  exact ⟨rfl,
         fun db hb => ⟨_, play_liveBg_some s hWF db hb⟩,
         fun hb => ⟨hb, play_liveBg_none s hWF hb⟩⟩

/-- Witness for C10 at c10State (background duration 3, video time 2). -/
theorem bg_decode_failure_keeps_buffer_witness :
    WF c10State ∧
    ((loadBg (some none) c10State).bgBuffer = c10State.bgBuffer ∧
     (∀ db, c10State.bgBuffer = some db →
       ∃ j, (play (loadBg (some none) c10State)).liveBg =
         [⟨j, jsMod c10State.videoTime db, true⟩]) ∧
     (c10State.bgBuffer = none → (loadBg (some none) c10State).bgBuffer = none ∧
       (play (loadBg (some none) c10State)).liveBg = [])) :=
  ⟨⟨by simp [c10State], by simp [c10State], by simp [c10State], by simp [c10State]⟩,
   bg_decode_failure_keeps_buffer c10State
     ⟨by simp [c10State], by simp [c10State], by simp [c10State], by simp [c10State]⟩⟩

end Dubbed
